import Mathlib

/-!
Verification of the feature-ranking, panel-dispatch and estimator-explanation
logic of the dabl plotting library (`dabl/plot/supervised.py`, `dabl/explain.py`).

Relevance scores are modelled as integers: every claim below depends only on
comparisons between scores, never on their arithmetic, so any linearly ordered
score type gives the same ranking behaviour.
-/

/-- Index comparison used to model `np.argsort(f)`: index `i` precedes index `j`
when the score of `i` is smaller, with ties resolved by the original index order
(the stable ascending argsort). Out-of-range indices read a default score of 0,
but the ranker only ever sorts in-range indices. -/
def idxLe (f : List Int) (i j : Nat) : Prop :=
  f.getD i 0 < f.getD j 0 ∨ (f.getD i 0 = f.getD j 0 ∧ i ≤ j)

instance idxLeDecidable (f : List Int) : DecidableRel (idxLe f) := by
  unfold idxLe
  exact fun i j => inferInstance

instance idxLeTotal (f : List Int) : IsTotal Nat (idxLe f) where
  total i j := by
    unfold idxLe
    rcases lt_trichotomy (f.getD i 0) (f.getD j 0) with h | h | h
    · exact Or.inl (Or.inl h)
    · rcases Nat.le_total i j with hij | hij
      · exact Or.inl (Or.inr ⟨h, hij⟩)
      · exact Or.inr (Or.inr ⟨h.symm, hij⟩)
    · exact Or.inr (Or.inl h)

instance idxLeTrans (f : List Int) : IsTrans Nat (idxLe f) where
  trans a b c hab hbc := by
    unfold idxLe at *
    rcases hab with h1 | ⟨h1, h2⟩ <;> rcases hbc with h3 | ⟨h3, h4⟩
    · exact Or.inl (lt_trans h1 h3)
    · exact Or.inl (h3 ▸ h1)
    · exact Or.inl (h1 ▸ h3)
    · exact Or.inr ⟨h1.trans h3, h2.trans h4⟩

/-- Model of `np.argsort(f)`: the indices `0, …, len(f)-1` sorted so that the
scores read at them are ascending. The model is stable on ties; numpy's
default quicksort documents no tie order, so theorems below either hold for
any ascending index order or concern two-element arrays, where numpy's sort
(a single comparison that does not swap equal elements) coincides with the
stable model. -/
def argsort (f : List Int) : List Nat :=
  (List.range f.length).insertionSort (idxLe f)

/-- Model of the Python slice `a[-k:]`: the last `k` elements, except that
`a[-0:]` is the whole list (Python negative-slice semantics). -/
def pySliceLast {β : Type} (l : List β) (k : Nat) : List β :=
  if k = 0 then l else l.drop (l.length - k)

/-- Model of the idiom `np.argsort(f)[-show_top:][::-1]` used by
`plot_regression_continuous`, `plot_regression_categorical` and
`plot_classification_categorical` to pick the top-`show_top` feature indices by
descending score. -/
def topK (f : List Int) (show_top : Nat) : List Nat :=
  (pySliceLast (argsort f) show_top).reverse

theorem argsort_perm_range (f : List Int) :
    List.Perm (argsort f) (List.range f.length) :=
  List.perm_insertionSort (idxLe f) (List.range f.length)

theorem argsort_sorted (f : List Int) : List.Sorted (idxLe f) (argsort f) :=
  List.sorted_insertionSort (idxLe f) (List.range f.length)

theorem argsort_length (f : List Int) : (argsort f).length = f.length := by
  simpa using (argsort_perm_range f).length_eq

theorem pySliceLast_sublist {β : Type} (l : List β) (k : Nat) :
    (pySliceLast l k).Sublist l := by
  unfold pySliceLast
  split
  · exact List.Sublist.refl l
  · exact List.drop_sublist _ l

theorem topK_nodup (f : List Int) (k : Nat) : (topK f k).Nodup := by
  have h1 : (argsort f).Nodup :=
    ((argsort_perm_range f).nodup_iff).mpr (List.nodup_range _)
  have h2 : (pySliceLast (argsort f) k).Nodup :=
    h1.sublist (pySliceLast_sublist _ _)
  simpa [topK] using h2

theorem topK_mem (f : List Int) (k i : Nat) (h : i ∈ topK f k) : i < f.length := by
  have h1 : i ∈ pySliceLast (argsort f) k := by simpa [topK] using h
  have h2 : i ∈ argsort f := (pySliceLast_sublist _ _).mem h1
  have h3 : i ∈ List.range f.length := (argsort_perm_range f).mem_iff.mp h2
  simpa using h3

theorem topK_length (f : List Int) (k : Nat) (hk : 0 < k) :
    (topK f k).length = min k f.length := by
  have hk0 : k ≠ 0 := Nat.pos_iff_ne_zero.mp hk
  simp only [topK, pySliceLast, hk0, if_false, List.length_reverse,
    List.length_drop, argsort_length]
  omega

theorem topK_sorted (f : List Int) (k : Nat) :
    (topK f k).Pairwise (fun i j => idxLe f j i) := by
  have h1 : (argsort f).Pairwise (idxLe f) := argsort_sorted f
  have h2 : (pySliceLast (argsort f) k).Pairwise (idxLe f) :=
    h1.sublist (pySliceLast_sublist _ _)
  simpa [topK, List.pairwise_reverse] using h2

theorem topK_scores_descending (f : List Int) (k : Nat) :
    (topK f k).Pairwise (fun i j => f.getD j 0 ≤ f.getD i 0) := by
  refine (topK_sorted f k).imp ?_
  intro i j h
  rcases h with h | ⟨h, _⟩
  · exact le_of_lt h
  · exact le_of_eq h

/-- Sorted distinct category values of a column, modelling the categories that
pandas assigns on `astype('category')` for a column of values. -/
def cat_categories (col : List Int) : List Int :=
  col.dedup.insertionSort (fun a b => a ≤ b)

/-- Model of `x.cat.codes` for one column: each value is replaced by the
position of its category in the sorted category list. Applied column-wise this
is the ordinal encoding `features.apply(lambda x: x.cat.codes)` of
`plot_regression_categorical` and `plot_classification_categorical`: one encoded
column per input column, never one-hot expansion. -/
def cat_codes (col : List Int) : List Nat :=
  col.map (fun v => (cat_categories col).indexOf v)

/-- Modelled from the spec: `mutual_info_regression` / `mutual_info_classif`
(external sklearn primitives, not part of the sources) are called with the
feature matrix and the target and return "an array of scores aligned to the
input feature order", i.e. one score per column of the feature matrix. The
per-column estimator is abstracted as the parameter `est`. -/
def mutual_info_scores (est : List Nat → List Int → Int)
    (X : List (List Nat)) (y : List Int) : List Int :=
  X.map (fun col => est col y)

/-- Modelled from the spec: `f_regression` (external sklearn primitive, not
part of the sources) returns one univariate F-test score per feature column;
the per-column statistic is abstracted as the parameter `ftest`. -/
def f_regression_scores (ftest : List Int → List Int → Int)
    (X : List (List Int)) (y : List Int) : List Int :=
  X.map (fun col => ftest col y)

/-- Ranked feature indices computed by `plot_regression_continuous`:
`f, p = f_regression(features_imp, target); top_k = np.argsort(f)[-show_top:][::-1]`. -/
def plot_regression_continuous_top_k (ftest : List Int → List Int → Int)
    (X : List (List Int)) (y : List Int) (show_top : Nat) : List Nat :=
  topK (f_regression_scores ftest X y) show_top

/-- Scoring-plus-selection pipeline shared by `plot_regression_categorical`
(with `mutual_info_regression`) and `plot_classification_categorical` (with
`mutual_info_classif`): ordinal-encode the categorical features, score them
with mutual information, and select `np.argsort(f)[-show_top:][::-1]`. Returns
the score array together with the selected feature ordering. -/
def categorical_mi_ranker (est : List Nat → List Int → Int)
    (features : List (List Int)) (target : List Int) (show_top : Nat) :
    List Int × List Nat :=
  let encoded := features.map cat_codes
  let f := mutual_info_scores est encoded target
  (f, topK f show_top)

/-- Columns actually drawn by the panel loop of `plot_regression_categorical`:
`for i, (col_ind, ax) in enumerate(zip(top_k, axes.ravel())): col = features.columns[i]`.
The loop reads `features.columns[i]` with the loop counter `i`, not with the
ranked index `col_ind`. Missing columns read as "". -/
def plot_regression_categorical_panel_columns (columns : List String)
    (f : List Int) (show_top : Nat) : List String :=
  ((topK f show_top).enum).map (fun p => columns.getD p.1 "")

/-- Scores shown in the panel titles of the same loop:
`ax.set_title("F={:.2E}".format(f[col_ind]))` reads the score at the ranked
index `col_ind`. -/
def plot_regression_categorical_panel_scores (f : List Int) (show_top : Nat) :
    List Int :=
  (topK f show_top).map (fun col_ind => f.getD col_ind 0)

/-- Columns drawn by the panel loop of `plot_classification_categorical`,
which reads `col = features.columns[col_ind]` with the ranked index. -/
def plot_classification_categorical_panel_columns (columns : List String)
    (f : List Int) (show_top : Nat) : List String :=
  (topK f show_top).map (fun col_ind => columns.getD col_ind "")

/-- Plot kinds accepted by `plot_classification_categorical`. -/
inductive PlotKind
  | auto
  | count
  | proportion
  | mosaic
  deriving DecidableEq

/-- Resolution of `kind='auto'` in `plot_classification_categorical`:
`if kind == "auto": kind = 'count' if X[target_col].nunique() > 5 else 'mosaic'`. -/
def resolve_plot_kind (kind : PlotKind) (target_nunique : Nat) : PlotKind :=
  if kind = PlotKind.auto then
    if target_nunique > 5 then PlotKind.count else PlotKind.mosaic
  else kind

/-- The `get_feature_names` attribute of a pipeline step's transformer, as
exercised by `_extract_inner_estimator`: absent (attribute access raises an
AttributeError, which nothing catches), accepting the input feature names
(`get_feature_names(feature_names)` succeeds), or zero-argument (the
one-argument call raises a TypeError, caught by the `except TypeError:`
fallback that calls `get_feature_names()`). -/
inductive FNAttr where
  | absent : FNAttr
  | unary (g : List String → List String) : FNAttr
  | nullary (g : Unit → List String) : FNAttr

/-- Estimator object shapes relevant to `_extract_inner_estimator`: the dabl
wrapper classes (`SimpleClassifier`, `SimpleRegressor`, `AnyClassifier`, each
holding an inner estimator in `est_`), sklearn `Pipeline` objects (a list of
named steps, each carrying its transformer's `get_feature_names` capability),
and any other concrete estimator (`plain`). -/
inductive Est where
  | plain (tag : Nat) : Est
  | simpleClassifier (inner : Est) : Est
  | simpleRegressor (inner : Est) : Est
  | anyClassifier (inner : Est) : Est
  | pipeline (steps : List (String × Est × FNAttr)) : Est

/-- First unwrapping stage of `_extract_inner_estimator`: a dabl wrapper is
replaced by its `est_` attribute, anything else is left alone. -/
def unwrap_dabl_wrapper (e : Est) : Est :=
  match e with
  | Est.simpleClassifier inner => inner
  | Est.simpleRegressor inner => inner
  | Est.anyClassifier inner => inner
  | other => other

/-- Model of `_extract_inner_estimator` (dabl/explain.py): unwrap a dabl
wrapper, then if the result is a `Pipeline` run `assert len(steps) == 2`
(an AssertionError propagates when the pipeline does not have exactly two
steps), look up `steps[0][1].get_feature_names` (an AttributeError propagates
uncaught when the first step has no such attribute; a TypeError from the
one-argument call falls back to the zero-argument call), and return
`_final_estimator`, the estimator of the last step, with the transformed
feature names. -/
def extract_inner_estimator (e : Est) (feature_names : List String) :
    Except String (Est × List String) :=
  match unwrap_dabl_wrapper e with
  | Est.pipeline steps =>
    match steps with
    | [s0, s1] =>
      match s0.2.2 with
      | FNAttr.absent => Except.error "AttributeError"
      | FNAttr.unary g => Except.ok (s1.2.1, g feature_names)
      | FNAttr.nullary g => Except.ok (s1.2.1, g ())
    | _ => Except.error "AssertionError"
  | other => Except.ok (other, feature_names)

/-- Modelled from the spec: `SelectFromModel(inner_estimator, prefit=True,
max_features=10)` followed by `fs.transform([feature_names]).ravel()` (external
sklearn, not part of the sources) keeps, in original column order, the feature
names whose importance is among the top ten. -/
def select_from_model_10 (importances : List Int) (feature_names : List String) :
    List String :=
  ((List.range feature_names.length).filter
    (fun i => decide (i ∈ topK importances 10))).map
    (fun i => feature_names.getD i "")

/-- Modelled from the spec: `plot_partial_dependence` (external sklearn, not
part of the sources) renders one partial-dependence panel but "may raise a
ValueError (e.g., insufficient data)"; `raises` says whether it raises on the
data at hand. -/
def plot_partial_dependence_m (raises : Bool) (title : String) :
    Except String String :=
  if raises then Except.error "ValueError" else Except.ok title

/-- Multiclass loop of the `try:` block: `for c in estimator.classes_:` draws
one partial-dependence plot per class; a ValueError raised at any class aborts
the remaining iterations and propagates to the handler. -/
def pdp_class_loop (raises : Bool) : List Int → Except String (List String)
  | [] => Except.ok []
  | c :: cs => do
    let t ← plot_partial_dependence_m raises
      ("Partial Dependence for class " ++ toString c)
    let ts ← pdp_class_loop raises cs
    pure (t :: ts)

/-- Body of the `try:` block of the partial-dependence section of `explain`:
a single plot when `n_classes <= 2`, otherwise one plot per entry of
`estimator.classes_`; a ValueError aborts the remainder of the block. -/
def pdp_attempt (n_classes : Nat) (classes : List Int) (raises : Bool) :
    Except String (List String) :=
  if n_classes ≤ 2 then
    (plot_partial_dependence_m raises "Partial Dependence").map (fun t => [t])
  else
    pdp_class_loop raises classes

/-- Model of the validation-data partial-dependence section of `explain`
(dabl/explain.py, lines 124-151): it runs only when `X_val` is given, is
skipped entirely when the inner estimator has a `coef_` attribute, and wraps
the plotting in `try: ... except ValueError as e: warn(...)`, so the call
completes (returning the rendered panel titles, empty when skipped or when the
ValueError was caught). -/
def explain_validation_pdp (inner_has_coef : Bool) (n_classes : Nat)
    (classes : List Int) (raises : Bool) : List String :=
  if inner_has_coef then []
  else
    match pdp_attempt n_classes classes raises with
    | Except.ok titles => titles
    | Except.error _ => []

/-- Per-column type flags, one row of the `detect_types` output frame; only
the three columns the analysed code touches are modelled. -/
structure ColType where
  continuous : Bool
  categorical : Bool
  low_card_int : Bool
  deriving DecidableEq

/-- Feature-column selection step shared by all four panel functions:
`features = X.loc[:, mask]` followed by
`if target_col in features.columns: features = features.drop(target_col, axis=1)`. -/
def select_feature_columns (cols : List String) (mask : String → Bool)
    (target_col : String) : List String :=
  if target_col ∈ cols.filter mask then
    (cols.filter mask).filter (fun c => c ≠ target_col)
  else cols.filter mask

/-- Feature columns scored by `plot_regression_continuous`
(`X.loc[:, types.continuous]`, then drop the target column). -/
def plot_regression_continuous_features (cols : List String)
    (types : String → ColType) (target_col : String) : List String :=
  select_feature_columns cols (fun c => (types c).continuous) target_col

/-- Feature columns scored by `plot_regression_categorical`
(`X.loc[:, types.categorical]`, then drop the target column). -/
def plot_regression_categorical_features (cols : List String)
    (types : String → ColType) (target_col : String) : List String :=
  select_feature_columns cols (fun c => (types c).categorical) target_col

/-- Feature columns scored by `plot_classification_continuous`
(`X.loc[:, types.continuous]`, then drop the target column). -/
def plot_classification_continuous_features (cols : List String)
    (types : String → ColType) (target_col : String) : List String :=
  select_feature_columns cols (fun c => (types c).continuous) target_col

/-- Feature columns scored by `plot_classification_categorical`
(`X.loc[:, types.categorical]`, then drop the target column). -/
def plot_classification_categorical_features (cols : List String)
    (types : String → ColType) (target_col : String) : List String :=
  select_feature_columns cols (fun c => (types c).categorical) target_col

/-- Model of the low-cardinality-integer resolution loop of `plot`
(dabl/plot/supervised.py, lines 489-497): every column flagged
`low_card_int` has that flag cleared and, depending on `guess_ordinal`
(a predicate on the column's data, here abstracted by column name), either
`continuous` or `categorical` set to `True`; other columns are untouched. -/
def resolve_low_card_int (guess_ordinal : String → Bool)
    (types : List (String × ColType)) : List (String × ColType) :=
  types.map (fun p =>
    if p.2.low_card_int then
      if guess_ordinal p.1 then
        (p.1, ColType.mk true p.2.categorical false)
      else
        (p.1, ColType.mk p.2.continuous true false)
    else p)

theorem select_from_model_10_le (importances : List Int) (names : List String) :
    (select_from_model_10 importances names).length ≤ 10 := by
  unfold select_from_model_10
  rw [List.length_map]
  have hnd : ((List.range names.length).filter
      (fun i => decide (i ∈ topK importances 10))).Nodup :=
    (List.nodup_range _).filter _
  have hsub : (List.range names.length).filter
      (fun i => decide (i ∈ topK importances 10)) ⊆ topK importances 10 := by
    intro i hi
    exact of_decide_eq_true (List.mem_filter.mp hi).2
  have hle := (List.subperm_of_subset hnd hsub).length_le
  have hlen : (topK importances 10).length ≤ 10 := by
    rw [topK_length importances 10 (by omega)]
    omega
  omega

theorem pdp_class_loop_ok (classes : List Int) :
    pdp_class_loop false classes
      = Except.ok (classes.map
          (fun c => "Partial Dependence for class " ++ toString c)) := by
  induction classes with
  | nil => rfl
  | cons c cs ih =>
    simp only [pdp_class_loop, plot_partial_dependence_m, ih]
    rfl

theorem mem_zip_map {α β : Type} (g : α → β) :
    ∀ (l : List α) (pq : α × β), pq ∈ l.zip (l.map g) → pq.2 = g pq.1 := by
  intro l
  induction l with
  | nil => intro pq h; simp at h
  | cons a t ih =>
    intro pq h
    simp only [List.map_cons, List.zip_cons_cons, List.mem_cons] at h
    rcases h with h | h
    · subst h; rfl
    · exact ih pq h

/-- C1: for a feature matrix with at least one continuous feature and a
regression target, `plot_regression_continuous` computes one F-score per
feature and its `top_k` selection has exactly `min(show_top, n_features)`
entries, ordered by descending score, forming a duplicate-free subset of the
original column indices. `show_top` is an arbitrary positive budget, covering
any value of the `_get_n_top` heuristic. -/
theorem regression_continuous_ranker_spec (ftest : List Int → List Int → Int)
    (X : List (List Int)) (y : List Int) (show_top : Nat) (hk : 0 < show_top) :
    (f_regression_scores ftest X y).length = X.length
    ∧ (plot_regression_continuous_top_k ftest X y show_top).length
        = min show_top X.length
    ∧ (plot_regression_continuous_top_k ftest X y show_top).Pairwise
        (fun i j => (f_regression_scores ftest X y).getD j 0
          ≤ (f_regression_scores ftest X y).getD i 0)
    ∧ (plot_regression_continuous_top_k ftest X y show_top).Nodup
    ∧ ∀ i ∈ plot_regression_continuous_top_k ftest X y show_top, i < X.length := by
  have hlen : (f_regression_scores ftest X y).length = X.length := by
    simp [f_regression_scores]
  refine ⟨hlen, ?_, ?_, ?_, ?_⟩
  · rw [plot_regression_continuous_top_k,
      topK_length (f_regression_scores ftest X y) show_top hk, hlen]
  · exact topK_scores_descending _ _
  · exact topK_nodup _ _
  · intro i hi
    have := topK_mem (f_regression_scores ftest X y) show_top i hi
    omega

/-- Witness for C1 at a concrete two-feature matrix with budget 1. -/
theorem regression_continuous_ranker_spec_witness :
    0 < 1
    ∧ ((f_regression_scores (fun _ _ => 0) [[3], [1]] []).length = [[3], [1]].length
      ∧ (plot_regression_continuous_top_k (fun _ _ => 0) [[3], [1]] [] 1).length
          = min 1 [[3], [1]].length
      ∧ (plot_regression_continuous_top_k (fun _ _ => 0) [[3], [1]] [] 1).Pairwise
          (fun i j => (f_regression_scores (fun _ _ => 0) [[3], [1]] []).getD j 0
            ≤ (f_regression_scores (fun _ _ => 0) [[3], [1]] []).getD i 0)
      ∧ (plot_regression_continuous_top_k (fun _ _ => 0) [[3], [1]] [] 1).Nodup
      ∧ ∀ i ∈ plot_regression_continuous_top_k (fun _ _ => 0) [[3], [1]] [] 1,
          i < [[3], [1]].length) :=
  ⟨Nat.one_pos,
    regression_continuous_ranker_spec (fun _ _ => 0) [[3], [1]] [] 1 Nat.one_pos⟩

/-- C2: ordinal encoding keeps one column per categorical feature, so the
mutual-information score array of `plot_regression_categorical` and
`plot_classification_categorical` has exactly as many entries as there are
categorical features, regardless of the number of categories per column. -/
theorem categorical_encoding_score_length (est : List Nat → List Int → Int)
    (features : List (List Int)) (target : List Int) (show_top : Nat) :
    (features.map cat_codes).length = features.length
    ∧ ((categorical_mi_ranker est features target show_top).1).length
        = features.length := by
  constructor
  · simp
  · simp [categorical_mi_ranker, mutual_info_scores]

/-- C4: the categorical ranker of `plot_regression_categorical` and
`plot_classification_categorical` is a pure function of its inputs: two calls
on identical feature matrices, targets and budgets produce identical score
arrays and identical selected orderings. -/
theorem categorical_ranker_deterministic (est : List Nat → List Int → Int)
    (F1 F2 : List (List Int)) (y1 y2 : List Int) (k1 k2 : Nat)
    (hF : F1 = F2) (hy : y1 = y2) (hk : k1 = k2) :
    (categorical_mi_ranker est F1 y1 k1).1 = (categorical_mi_ranker est F2 y2 k2).1
    ∧ (categorical_mi_ranker est F1 y1 k1).2
        = (categorical_mi_ranker est F2 y2 k2).2 := by
  subst hF
  subst hy
  subst hk
  exact ⟨rfl, rfl⟩

/-- Witness for C4 at a concrete one-feature call repeated twice. -/
theorem categorical_ranker_deterministic_witness :
    (categorical_mi_ranker (fun _ _ => 0) [[5]] [2] 1).1
        = (categorical_mi_ranker (fun _ _ => 0) [[5]] [2] 1).1
    ∧ (categorical_mi_ranker (fun _ _ => 0) [[5]] [2] 1).2
        = (categorical_mi_ranker (fun _ _ => 0) [[5]] [2] 1).2 :=
  categorical_ranker_deterministic (fun _ _ => 0) [[5]] [[5]] [2] [2] 1 1 rfl rfl rfl

/-- C5 counterexample: two features with equal scores. The claim predicts the
earlier column (index 0) is ranked ahead, giving `[0, 1]`; the code's
`np.argsort(f)[-show_top:][::-1]` ranks the later column first. -/
theorem tie_break_counterexample :
    topK [(7 : Int), 7] 2 = [1, 0] ∧ ([1, 0] : List Nat) ≠ [0, 1] := by
  decide

/-- C5 amended: the ranking does not break ties by original column order; in
the two-feature case with equal scores - where numpy's sort behaves exactly
like the stable model, comparing once and not swapping equal elements - the
feature appearing later in the input column order is ranked ahead of the
earlier one, whatever the shared score. For larger tie groups numpy's default
quicksort leaves the order unspecified, so no ordering is asserted there. -/
theorem tie_break_two_equal_scores (a : Int) : topK [a, a] 2 = [1, 0] := by
  have h01 : idxLe [a, a] 0 1 := Or.inr ⟨rfl, by omega⟩
  have hsort : argsort [a, a] = [0, 1] := by
    show List.insertionSort (idxLe [a, a]) (List.range 2) = [0, 1]
    have hr : (List.range 2 : List Nat) = [0, 1] := rfl
    rw [hr]
    show List.orderedInsert (idxLe [a, a]) 0 [1] = [0, 1]
    rw [List.orderedInsert, if_pos h01]
  unfold topK
  rw [hsort]
  rfl

/-- C6: with `kind='auto'`, `plot_classification_categorical` resolves to
mosaic exactly when the target has at most 5 distinct classes, and to count
otherwise. -/
theorem auto_kind_resolution (n : Nat) :
    (resolve_plot_kind PlotKind.auto n = PlotKind.mosaic ↔ n ≤ 5)
    ∧ (resolve_plot_kind PlotKind.auto n = PlotKind.count ↔ 5 < n) := by
  by_cases h : 5 < n
  · simp only [resolve_plot_kind, if_pos rfl, if_pos h]
    constructor
    · simp
      omega
    · simp
      omega
  · simp only [resolve_plot_kind, if_pos rfl, if_neg h]
    constructor
    · simp
      omega
    · simp
      omega

/-- C3 (code bug): with categorical columns `["a", "b"]`, mutual-information
scores `[1, 9]` and `show_top = 2`, the ranking is `[1, 0]` (column "b" first),
and the classification twin draws `["b", "a"]`, but the regression panel loop
draws the columns in original order `["a", "b"]` while its titles carry the
ranked scores `[9, 1]`: panel 0 shows column "a" (score 1) under the title
score 9 of column "b". -/
theorem regression_categorical_panel_mismatch :
    topK [(1 : Int), 9] 2 = [1, 0]
    ∧ plot_regression_categorical_panel_columns ["a", "b"] [1, 9] 2 = ["a", "b"]
    ∧ plot_regression_categorical_panel_scores [1, 9] 2 = [9, 1]
    ∧ plot_classification_categorical_panel_columns ["a", "b"] [1, 9] 2
        = ["b", "a"] := by
  decide

/-- C7 counterexample: an inner estimator exposing `coef_`, validation data
given, two classes, partial dependence computable: `explain` renders no
partial-dependence panel at all, while the identical call without `coef_`
renders one, refuting the claim that validation data alone triggers the
partial-dependence plots. -/
theorem explain_pdp_coef_guard_counterexample :
    explain_validation_pdp true 2 [0, 1] false = []
    ∧ explain_validation_pdp false 2 [0, 1] false = ["Partial Dependence"] :=
  ⟨rfl, rfl⟩

/-- C7 amended: with validation data, `explain` selects at most 10 features
via the model-based selector; the partial-dependence step runs only when the
inner estimator has no `coef_` attribute, in which case it draws one panel for
at most two classes and one panel per class for more than two, and a
ValueError raised by the computation is caught so the call completes with no
partial-dependence panel. -/
theorem explain_pdp_amended (importances : List Int) (names : List String)
    (n_classes : Nat) (classes : List Int) (raises : Bool)
    (hcl : 2 < n_classes → classes.length = n_classes) :
    (select_from_model_10 importances names).length ≤ 10
    ∧ explain_validation_pdp true n_classes classes raises = []
    ∧ (raises = true → explain_validation_pdp false n_classes classes raises = [])
    ∧ (raises = false → n_classes ≤ 2 →
        explain_validation_pdp false n_classes classes raises
          = ["Partial Dependence"])
    ∧ (raises = false → 2 < n_classes →
        (explain_validation_pdp false n_classes classes raises).length
          = classes.length) := by
  refine ⟨select_from_model_10_le importances names, rfl, ?_, ?_, ?_⟩
  · rintro rfl
    by_cases h2 : n_classes ≤ 2
    · have hatt : pdp_attempt n_classes classes true = Except.error "ValueError" := by
        unfold pdp_attempt
        rw [if_pos h2]
        rfl
      simp [explain_validation_pdp, hatt]
    · have hne : classes ≠ [] := by
        have := hcl (by omega)
        intro hnil
        rw [hnil] at this
        simp at this
        omega
      rcases classes with _ | ⟨c, cs⟩
      · exact absurd rfl hne
      · have hatt : pdp_attempt n_classes (c :: cs) true
            = Except.error "ValueError" := by
          unfold pdp_attempt
          rw [if_neg h2]
          rfl
        simp [explain_validation_pdp, hatt]
  · rintro rfl h2
    have hatt : pdp_attempt n_classes classes false
        = Except.ok ["Partial Dependence"] := by
      unfold pdp_attempt
      rw [if_pos h2]
      rfl
    simp [explain_validation_pdp, hatt]
  · rintro rfl h2
    have hatt : pdp_attempt n_classes classes false
        = Except.ok (classes.map
            (fun c => "Partial Dependence for class " ++ toString c)) := by
      unfold pdp_attempt
      rw [if_neg (by omega)]
      exact pdp_class_loop_ok classes
    simp [explain_validation_pdp, hatt]

/-- Witness for C7 amended at a three-class estimator without `coef_`. -/
theorem explain_pdp_amended_witness :
    (2 < 3 → ([4, 5, 6] : List Int).length = 3)
    ∧ ((select_from_model_10 [1] ["a"]).length ≤ 10
      ∧ explain_validation_pdp true 3 [4, 5, 6] false = []
      ∧ (false = true → explain_validation_pdp false 3 [4, 5, 6] false = [])
      ∧ (false = false → 3 ≤ 2 →
          explain_validation_pdp false 3 [4, 5, 6] false = ["Partial Dependence"])
      ∧ (false = false → 2 < 3 →
          (explain_validation_pdp false 3 [4, 5, 6] false).length
            = ([4, 5, 6] : List Int).length)) :=
  ⟨fun _ => rfl, explain_pdp_amended [1] ["a"] 3 [4, 5, 6] false (fun _ => rfl)⟩

/-- C8 counterexample: a 2-step pipeline whose first step lacks
`get_feature_names` (a plain sklearn transformer such as StandardScaler).
`_extract_inner_estimator` raises an uncaught AttributeError at the
`steps[0][1].get_feature_names(feature_names)` lookup instead of returning the
final estimator, refuting the claim's unconditional 2-step success. -/
theorem pipeline_unwrap_counterexample :
    extract_inner_estimator
      (Est.pipeline [("scale", Est.plain 0, FNAttr.absent),
        ("model", Est.plain 1, FNAttr.absent)]) ["x"]
      = Except.error "AttributeError"
    ∧ (Except.error "AttributeError" : Except String (Est × List String))
        ≠ Except.ok (Est.plain 1, ["x"]) :=
  ⟨rfl, by simp⟩

/-- C8 amended: when `_extract_inner_estimator` reaches a Pipeline, any number
of steps other than 2 fails the `assert len(inner_estimator.steps) == 2` with
an AssertionError instead of proceeding; a 2-step pipeline yields the final
step's estimator when the first step provides `get_feature_names` (either
accepting the input names, or via the TypeError fallback to the zero-argument
call), while a first step without `get_feature_names` raises an uncaught
AttributeError instead of returning; a dabl wrapper around the pipeline is
unwrapped first and does not change the outcome. -/
theorem pipeline_unwrap_amended (steps : List (String × Est × FNAttr))
    (names : List String) :
    (steps.length ≠ 2 →
      extract_inner_estimator (Est.pipeline steps) names
        = Except.error "AssertionError")
    ∧ (∀ n0 e0 g s1, steps = [(n0, e0, FNAttr.unary g), s1] →
      extract_inner_estimator (Est.pipeline steps) names
        = Except.ok (s1.2.1, g names))
    ∧ (∀ n0 e0 g s1, steps = [(n0, e0, FNAttr.nullary g), s1] →
      extract_inner_estimator (Est.pipeline steps) names
        = Except.ok (s1.2.1, g ()))
    ∧ (∀ n0 e0 s1, steps = [(n0, e0, FNAttr.absent), s1] →
      extract_inner_estimator (Est.pipeline steps) names
        = Except.error "AttributeError")
    ∧ extract_inner_estimator (Est.simpleClassifier (Est.pipeline steps)) names
        = extract_inner_estimator (Est.pipeline steps) names := by
  refine ⟨?_, ?_, ?_, ?_, rfl⟩
  · intro hlen
    rcases steps with _ | ⟨s0, _ | ⟨s1, _ | ⟨s2, rest⟩⟩⟩
    · rfl
    · rfl
    · exact absurd rfl hlen
    · rfl
  · rintro n0 e0 g s1 rfl
    rfl
  · rintro n0 e0 g s1 rfl
    rfl
  · rintro n0 e0 s1 rfl
    rfl

/-- Witness for C8 amended at a 1-step pipeline and at 2-step pipelines whose
first step accepts the input feature names. -/
theorem pipeline_unwrap_amended_witness :
    extract_inner_estimator
        (Est.pipeline [("p", Est.plain 0, FNAttr.absent)]) ["x"]
        = Except.error "AssertionError"
    ∧ extract_inner_estimator
        (Est.pipeline [("scale", Est.plain 0, FNAttr.unary (fun ns => ns)),
          ("model", Est.plain 1, FNAttr.absent)]) ["x"]
        = Except.ok (Est.plain 1, ["x"]) :=
  ⟨(pipeline_unwrap_amended [("p", Est.plain 0, FNAttr.absent)] ["x"]).1
     (by decide),
   (pipeline_unwrap_amended
       [("scale", Est.plain 0, FNAttr.unary (fun ns => ns)),
         ("model", Est.plain 1, FNAttr.absent)] ["x"]).2.1
     "scale" (Est.plain 0) (fun ns => ns) ("model", Est.plain 1, FNAttr.absent)
     rfl⟩

theorem target_not_mem_select (cols : List String) (mask : String → Bool)
    (target_col : String) :
    target_col ∉ select_feature_columns cols mask target_col := by
  unfold select_feature_columns
  split
  · simp [List.mem_filter]
  · assumption

/-- C9: in all four panel functions the target column is dropped from the
selected feature columns before scoring, so the scored feature matrix never
contains the target column. -/
theorem target_excluded_from_features (cols : List String)
    (types : String → ColType) (target_col : String) :
    target_col ∉ plot_regression_continuous_features cols types target_col
    ∧ target_col ∉ plot_regression_categorical_features cols types target_col
    ∧ target_col ∉ plot_classification_continuous_features cols types target_col
    ∧ target_col ∉ plot_classification_categorical_features cols types target_col :=
  ⟨target_not_mem_select _ _ _, target_not_mem_select _ _ _,
   target_not_mem_select _ _ _, target_not_mem_select _ _ _⟩

/-- C10: after the `plot` type-resolution loop, no column remains flagged
`low_card_int`; a column that was flagged keeps its name and, provided its
flags were exclusive beforehand, ends up continuous exactly when
`guess_ordinal` holds and categorical otherwise - exactly one of the two. -/
theorem low_card_int_resolution (guess_ordinal : String → Bool)
    (types : List (String × ColType))
    (pq : (String × ColType) × (String × ColType))
    (hmem : pq ∈ types.zip (resolve_low_card_int guess_ordinal types)) :
    pq.2.2.low_card_int = false
    ∧ pq.2.1 = pq.1.1
    ∧ (pq.1.2.low_card_int = true → pq.1.2.continuous = false →
        pq.1.2.categorical = false →
        pq.2.2.continuous = guess_ordinal pq.1.1
        ∧ pq.2.2.categorical = !(guess_ordinal pq.1.1)) := by
  unfold resolve_low_card_int at hmem
  have h2 := mem_zip_map _ types pq hmem
  rcases pq with ⟨⟨name, ct⟩, res⟩
  simp only at h2
  subst h2
  rcases ct with ⟨cont, cat, lci⟩
  cases lci
  · simp
  · cases hg : guess_ordinal name
    · simp [hg]
      intro h _
      exact h
    · simp [hg]

/-- Witness for C10 at a single low-cardinality integer column guessed
ordinal. -/
theorem low_card_int_resolution_witness :
    (ColType.mk true false false).low_card_int = false
    ∧ "age" = "age"
    ∧ ((ColType.mk false false true).low_card_int = true →
        (ColType.mk false false true).continuous = false →
        (ColType.mk false false true).categorical = false →
        (ColType.mk true false false).continuous = true
        ∧ (ColType.mk true false false).categorical = !true) :=
  low_card_int_resolution (fun _ => true) [("age", ColType.mk false false true)]
    (("age", ColType.mk false false true), ("age", ColType.mk true false false))
    (by decide)
